import Mathlib

/-!
Shallow embedding of the libdlt-ng client library (Rust) in Lean 4.

Bytes are modelled as `Nat` (well-formedness `< 256` is carried as
hypotheses where a theorem needs it); byte sequences are `List Nat`.
Machine-integer casts (`as u16`, `as u32`) are explicit `% 2^w`.

Sources embedded:
  - src/core/types.rs      (identifier padding/truncation)
  - src/core/protocol.rs   (storage/standard/extended headers, DltMessage)
  - src/lib/mod.rs         (overflow mode, ring enqueue, worker send, stats,
                            buffer selection, env configuration)
  - src/client/mod.rs      (subscriber framing loop)
-/

namespace Dlt

/-- Little-endian read of a u16 from two bytes (`u16::from_le_bytes`). -/
def u16ofLe (b0 b1 : Nat) : Nat := b0 + 256 * b1

/-- Little-endian read of a u32 from four bytes (`u32::from_le_bytes`). -/
def u32ofLe (b0 b1 b2 b3 : Nat) : Nat :=
  b0 + 256 * b1 + 65536 * b2 + 16777216 * b3

/-- `u16::to_le_bytes` on a value already `< 2^16`. -/
def u16le (n : Nat) : List Nat := [n % 256, n / 256 % 256]

/-- `u32::to_le_bytes` on a value already `< 2^32`. -/
def u32le (n : Nat) : List Nat :=
  [n % 256, n / 256 % 256, n / 65536 % 256, n / 16777216 % 256]

/-- The storage pattern `b"DLT\x01"`. -/
def dltPattern : List Nat := [68, 76, 84, 1]

/-- `AppId::new` / `ContextId::new` / `EcuId::new` from src/core/types.rs:
copy at most 4 bytes of the input into a zero-initialised 4-byte array
(shorter inputs are zero-padded, longer inputs truncated at 4). -/
def idNew (s : List Nat) : List Nat :=
  (s.take 4) ++ List.replicate (4 - (s.take 4).length) 0

-- DLT Storage Header (16 bytes), src/core/protocol.rs
structure DltStorageHeader where
  pattern : List Nat
  seconds : Nat
  microseconds : Nat
  ecu : List Nat
deriving DecidableEq, Repr

def DltStorageHeader.toBytes (h : DltStorageHeader) : List Nat :=
  h.pattern ++ u32le h.seconds ++ u32le h.microseconds ++ h.ecu

def DltStorageHeader.fromBytes (bytes : List Nat) : Option DltStorageHeader :=
  if bytes.length < 16 then none
  else some
    { pattern := bytes.take 4
      seconds := u32ofLe (bytes.getD 4 0) (bytes.getD 5 0) (bytes.getD 6 0) (bytes.getD 7 0)
      microseconds := u32ofLe (bytes.getD 8 0) (bytes.getD 9 0) (bytes.getD 10 0) (bytes.getD 11 0)
      ecu := (bytes.drop 12).take 4 }

-- DLT Standard Header (4 bytes), src/core/protocol.rs
structure DltStandardHeader where
  htyp : Nat
  mcnt : Nat
  len : Nat
deriving DecidableEq, Repr

/-- `DltStandardHeader::new`: htyp is 0x35 with an extended header, else 0x21. -/
def DltStandardHeader.new (hasExtended : Bool) (mcnt len : Nat) : DltStandardHeader :=
  { htyp := if hasExtended then 0x35 else 0x21, mcnt := mcnt, len := len }

def DltStandardHeader.toBytes (h : DltStandardHeader) : List Nat :=
  [h.htyp, h.mcnt] ++ u16le h.len

def DltStandardHeader.fromBytes (bytes : List Nat) : Option DltStandardHeader :=
  if bytes.length < 4 then none
  else some
    { htyp := bytes.getD 0 0
      mcnt := bytes.getD 1 0
      len := u16ofLe (bytes.getD 2 0) (bytes.getD 3 0) }

-- DLT Extended Header (10 bytes), src/core/protocol.rs
structure DltExtendedHeader where
  msin : Nat
  noar : Nat
  apid : List Nat
  ctid : List Nat
deriving DecidableEq, Repr

/-- `DltExtendedHeader::new`: msin fixed at 0x01 (verbose, log, info). -/
def DltExtendedHeader.new (apid ctid : List Nat) (noar : Nat) : DltExtendedHeader :=
  { msin := 0x01, noar := noar, apid := apid, ctid := ctid }

def DltExtendedHeader.toBytes (h : DltExtendedHeader) : List Nat :=
  [h.msin, h.noar] ++ h.apid ++ h.ctid

def DltExtendedHeader.fromBytes (bytes : List Nat) : Option DltExtendedHeader :=
  if bytes.length < 10 then none
  else some
    { msin := bytes.getD 0 0
      noar := bytes.getD 1 0
      apid := ((bytes.drop 2).take 4)
      ctid := ((bytes.drop 6).take 4) }

-- Complete DLT Message, src/core/protocol.rs
structure DltMessage where
  storage_header : DltStorageHeader
  standard_header : DltStandardHeader
  extended_header : Option DltExtendedHeader
  payload : List Nat
deriving DecidableEq, Repr

/-- `DltMessage::new_verbose`.  The Rust code stamps the storage header with
`SystemTime::now` (`as_secs() as u32`, `subsec_micros()`); the wall-clock
reading is a parameter here (`secs`, `micros`), truncated to u32 exactly as
the `as u32` cast does.  The string-length field is `(message.len() + 1) as
u16` and the standard-header length is `(4 + 10 + payload.len()) as u16`,
both explicit `% 2^16`. -/
def DltMessage.new_verbose (secs micros : Nat) (ecu apid ctid : List Nat)
    (message : List Nat) : DltMessage :=
  let payload : List Nat :=
    [0x00, 0x00, 0x00, 0x21] ++ u16le ((message.length + 1) % 65536)
      ++ message ++ [0]
  let total_len := 4 + 10 + payload.length
  { storage_header :=
      { pattern := dltPattern, seconds := secs % 4294967296
        microseconds := micros % 4294967296, ecu := ecu }
    standard_header := DltStandardHeader.new true 0 (total_len % 65536)
    extended_header := some (DltExtendedHeader.new apid ctid 1)
    payload := payload }

def DltMessage.toBytes (m : DltMessage) : List Nat :=
  m.storage_header.toBytes ++ m.standard_header.toBytes
    ++ (match m.extended_header with
        | some ext => ext.toBytes
        | none => []) ++ m.payload

/-- `DltMessage::from_bytes`.  Mirrors the Rust: a 20-byte minimum, the
storage header from bytes 0..16, the standard header from bytes 16..20,
then `has_extended = (htyp & 0x01) != 0` (modelled `htyp % 2 = 1`); with the
bit set a 30-byte minimum is required and the extended header is the
(un-propagated) `Option` parse of bytes 20..30; the payload is everything
after.  The storage pattern is never inspected and the declared length is
never compared with the buffer. -/
def DltMessage.fromBytes (bytes : List Nat) : Option DltMessage :=
  if bytes.length < 20 then none
  else
    match DltStorageHeader.fromBytes (bytes.take 16),
          DltStandardHeader.fromBytes ((bytes.drop 16).take 4) with
    | some storage, some std =>
      if std.htyp % 2 = 1 then
        if bytes.length < 30 then none
        else some
          { storage_header := storage, standard_header := std
            extended_header := DltExtendedHeader.fromBytes ((bytes.drop 20).take 10)
            payload := bytes.drop 30 }
      else some
        { storage_header := storage, standard_header := std
          extended_header := none, payload := bytes.drop 20 }
    | _, _ => none

/-- Drop trailing zero bytes (the effect of `trim_end_matches('\0')` on the
lossy-decoded payload string, at the byte level). -/
def trimTrailingZeros (l : List Nat) : List Nat :=
  (l.reverse.dropWhile (· = 0)).reverse

/-- `DltMessage::extract_string_payload`: defined when the payload exceeds
6 bytes; returns the bytes after the 6-byte argument prefix with trailing
nulls removed. -/
def DltMessage.extract_string_payload (m : DltMessage) : Option (List Nat) :=
  if m.payload.length > 6 then some (trimTrailingZeros (m.payload.drop 6))
  else none

-- ---------------------------------------------------------------------
-- src/lib/mod.rs: overflow mode, configuration, rings, worker, stats
-- ---------------------------------------------------------------------

/-- Log levels, src/lib/mod.rs (`DltLogLevel`, discriminants 1..6). -/
inductive DltLogLevel where
  | Fatal | Error | Warn | Info | Debug | Verbose
deriving DecidableEq, Repr

/-- The `as usize` value of a level (its enum discriminant). -/
def DltLogLevel.toNat : DltLogLevel → Nat
  | .Fatal => 1
  | .Error => 2
  | .Warn => 3
  | .Info => 4
  | .Debug => 5
  | .Verbose => 6

/-- Overflow handling modes, src/lib/mod.rs (`OverflowMode`). -/
inductive OverflowMode where
  | Overwrite | DropNewest | BlockWithTimeout
deriving DecidableEq, Repr

/-- `OverflowMode::from_u8`: 0, 1, 2 map to the three modes; every other
value falls to the wildcard arm and yields `Overwrite`. -/
def OverflowMode.fromU8 (v : Nat) : OverflowMode :=
  if v = 0 then .Overwrite
  else if v = 1 then .DropNewest
  else if v = 2 then .BlockWithTimeout
  else .Overwrite

/-- `dlt_set_overflow_mode`: the new byte is stored only when `mode <= 2`;
otherwise an error is printed and the register keeps its old value.  The
function returns the stored byte after the call. -/
def dlt_set_overflow_mode (mode stored : Nat) : Nat :=
  if mode ≤ 2 then mode else stored

/-- `str::parse::<usize>` restricted to plain digit strings (the only shape
the configuration uses); an empty or non-digit string fails. -/
def parseUsize (s : String) : Option Nat :=
  if s.isEmpty then none
  else s.data.foldl
    (fun acc c =>
      acc.bind (fun a =>
        if '0' ≤ c ∧ c ≤ '9' then some (a * 10 + (c.toNat - 48)) else none))
    (some 0)

/-- `BufferConfig::from_env`, the `num_buffers` field: the value of
`DLT_USER_NUM_BUFFERS` parsed as usize, defaulting to 4 when the variable is
absent or does not parse.  No lower bound is enforced. -/
def numBuffersFromEnv (env : Option String) : Nat :=
  (env.bind parseUsize).getD 4

/-- `DltUserState::select_buffer`.  The Rust `match` has guarded arms: a
failed guard falls through to the wildcard arm, which computes
`(level as usize) % self.senders.len()` — a panic when the ring count is 0
(`none` here). -/
def select_buffer (level : DltLogLevel) (n : Nat) : Option Nat :=
  if level = .Fatal ∧ 0 < n then some 0
  else if level = .Error ∧ 1 < n then some (1 % n)
  else if 0 < n then some (level.toNat % n)
  else none

/-- Per-buffer statistics, src/lib/mod.rs (`BufferStats`). -/
structure BufferStats where
  enqueued : Nat
  dropped : Nat
  sent : Nat
deriving DecidableEq, Repr

/-- One ring: a crossbeam `bounded(capacity)` channel (queue front = oldest)
plus its statistics.  `closed` models the channel's disconnected state. -/
structure Ring where
  capacity : Nat
  queue : List Nat
  closed : Bool
  stats : BufferStats
deriving DecidableEq, Repr

/-- Result of `enqueue_message` as observed by the producer. -/
inductive EnqueueOutcome where
  | accepted | droppedFull | droppedTimeout | disconnected
deriving DecidableEq, Repr

/-- crossbeam `Sender::try_send` on a bounded channel: append to the back
when below capacity, `Full` otherwise, `Disconnected` when closed. -/
inductive TrySendResult where
  | ok | full | disconnected
deriving DecidableEq, Repr

def trySend (r : Ring) (env : Nat) : Ring × TrySendResult :=
  if r.closed then (r, .disconnected)
  else if r.queue.length < r.capacity then
    ({ r with queue := r.queue ++ [env] }, .ok)
  else (r, .full)

/-- `DltUserState::enqueue_message`, the per-ring part (lines 331..362 of
src/lib/mod.rs).  `Overwrite` and `DropNewest` share one arm: `try_send`,
counting `enqueued` on success and `dropped` on `Full` (the *new* envelope
is the one discarded; the queue is left as it was).  `BlockWithTimeout`
uses `send_timeout`; in this sequential model (no concurrent consumer) a
full ring always times out, counting one drop, and a non-full ring accepts. -/
def enqueue_message (mode : OverflowMode) (r : Ring) (env : Nat) :
    Ring × EnqueueOutcome :=
  match mode with
  | .Overwrite | .DropNewest =>
    match trySend r env with
    | (r1, .ok) =>
      ({ r1 with stats := { r1.stats with enqueued := r1.stats.enqueued + 1 } },
       .accepted)
    | (r1, .full) =>
      ({ r1 with stats := { r1.stats with dropped := r1.stats.dropped + 1 } },
       .droppedFull)
    | (r1, .disconnected) => (r1, .disconnected)
  | .BlockWithTimeout =>
    if r.closed then (r, .disconnected)
    else if r.queue.length < r.capacity then
      ({ r with queue := r.queue ++ [env]
                stats := { r.stats with enqueued := r.stats.enqueued + 1 } },
       .accepted)
    else
      ({ r with stats := { r.stats with dropped := r.stats.dropped + 1 } },
       .droppedTimeout)

/-- `dlt_get_overflow_count`: the sum of the per-ring `dropped` counters —
and nothing else. -/
def dlt_get_overflow_count (rings : List Ring) : Nat :=
  (rings.map (fun r => r.stats.dropped)).sum

/-- Outcome of one `transport.writev` call as the worker sees it through
`writev_send`: success, `WouldBlock`, or any other I/O error. -/
inductive WritevOutcome where
  | ok | wouldBlock | otherErr
deriving DecidableEq, Repr

/-- The send-and-reconnect tail of one worker batch cycle
(src/lib/mod.rs lines 248..270).  Input: the ring's stats, the current
`connected` flag, the batch size, the outcome of the first `writev_send`, and
— for the reconnect branch — whether `connect()` succeeds and the outcome of
the retry `writev_send`.  Output: the stats and `connected` flag after the
cycle.  On success `sent` grows by the batch size; on any error (including
`WouldBlock`) `connected` is cleared and no counter changes; the reconnect
branch retries once and again touches only `sent`. -/
def workerSendBatch (stats : BufferStats) (connected : Bool) (batchLen : Nat)
    (firstOutcome : WritevOutcome) (reconnectOk : Bool)
    (retryOutcome : WritevOutcome) : BufferStats × Bool :=
  let step1 : BufferStats × Bool :=
    if connected ∧ batchLen ≠ 0 then
      match firstOutcome with
      | .ok => ({ stats with sent := stats.sent + batchLen }, true)
      | _ => (stats, false)
    else (stats, connected)
  match step1 with
  | (stats1, true) => (stats1, true)
  | (stats1, false) =>
    if reconnectOk then
      if batchLen ≠ 0 then
        match retryOutcome with
        | .ok => ({ stats1 with sent := stats1.sent + batchLen }, true)
        | _ => (stats1, true)
      else (stats1, true)
    else (stats1, false)

-- ---------------------------------------------------------------------
-- src/client/mod.rs: subscriber framing loop
-- ---------------------------------------------------------------------

/-- The framing loop of `DltClient::receive_messages` over the accumulated
`pending_data` (lines 34..61 of src/client/mod.rs).  Starting at `offset`,
while at least 20 bytes remain it reads the declared standard-header length
from bytes `offset+18..offset+19`, forms `total_len = 16 + std_len`, stops
if the buffer cannot hold it, otherwise parses that slice (keeping the
message only when `from_bytes` succeeds) and advances by `total_len` —
on success and on failure alike.  Returns the collected messages and the
final offset (the amount subsequently drained). -/
def receiveLoop (pending : List Nat) (offset : Nat) (msgs : List DltMessage) :
    List DltMessage × Nat :=
  if offset < pending.length then
    if pending.length - offset < 20 then (msgs, offset)
    else
      let stdLen := u16ofLe (pending.getD (offset + 18) 0) (pending.getD (offset + 19) 0)
      if pending.length < offset + (16 + stdLen) then (msgs, offset)
      else
        let slice := (pending.drop offset).take (16 + stdLen)
        let msgs' := match DltMessage.fromBytes slice with
          | some m => msgs ++ [m]
          | none => msgs
        receiveLoop pending (offset + (16 + stdLen)) msgs'
  else (msgs, offset)
termination_by pending.length - offset
decreasing_by omega

-- ---------------------------------------------------------------------
-- Claim-support definitions
-- ---------------------------------------------------------------------

/-- The ring-routing function exactly as the spec words it
("Fatal → ring 0; Error → ring 1 mod N; all other levels → level mod N"),
to be compared against `select_buffer` from the source. -/
def specRingForLevel (level : DltLogLevel) (n : Nat) : Nat :=
  match level with
  | .Fatal => 0
  | .Error => 1 % n
  | _ => level.toNat % n

/-- The concrete message of the spec's decode scenario: app `LOG`, context
`TEST`, ECU `ECU1`, payload text `"0 Hello"` (bytes of the ASCII text),
with the wall-clock reading as parameters. -/
def msgHello (secs micros : Nat) : DltMessage :=
  DltMessage.new_verbose secs micros
    (idNew [69, 67, 85, 49])   -- "ECU1"
    (idNew [76, 79, 71])       -- "LOG"
    (idNew [84, 69, 83, 84])   -- "TEST"
    [48, 32, 72, 101, 108, 108, 111]  -- "0 Hello"

/-- A 20-byte buffer whose first four bytes are not the storage pattern and
whose header-type byte (offset 16) is 0x20 (extended-header bit clear). -/
def badMagic20 : List Nat := List.replicate 16 0 ++ [32, 0, 0, 0]

/-- A message as built by `DltStandardHeader::new(false, ..)` — no extended
header, header-type byte 0x21 — with empty payload and a fixed clock. -/
def mNoExt : DltMessage :=
  { storage_header :=
      { pattern := dltPattern, seconds := 0, microseconds := 0
        ecu := [69, 67, 85, 49] }
    standard_header := DltStandardHeader.new false 0 4
    extended_header := none
    payload := [] }

end Dlt

-- sanity examples (concrete evaluation of the codec)
example : Dlt.u16le 65535 = [255, 255] := by decide
example : Dlt.u32ofLe 1 0 0 0 = 1 := by decide
example : Dlt.parseUsize "0" = some 0 := by decide
example : Dlt.numBuffersFromEnv (some "0") = 0 := by decide
example : Dlt.numBuffersFromEnv none = 4 := by decide

namespace Dlt

-- ---------------------------------------------------------------------
-- Theorems
-- ---------------------------------------------------------------------

-- Helper lemmas -------------------------------------------------------

theorem list_length_four (l : List Nat) (h : l.length = 4) :
    ∃ a b c d, l = [a, b, c, d] := by
  match l, h with
  | [a, b, c, d], _ => exact ⟨a, b, c, d, rfl⟩

theorem u32_le_of (s : Nat) (h : s < 4294967296) :
    u32ofLe (s % 256) (s / 256 % 256) (s / 65536 % 256) (s / 16777216 % 256) = s := by
  unfold u32ofLe
  omega

theorem u16_le_of (s : Nat) (h : s < 65536) :
    u16ofLe (s % 256) (s / 256 % 256) = s := by
  unfold u16ofLe
  omega

theorem getD_drop (l : List Nat) (n m d : Nat) :
    (l.drop n).getD m d = l.getD (n + m) d := by
  simp [List.getD]

theorem getD_take (l : List Nat) (n m d : Nat) (h : m < n) :
    (l.take n).getD m d = l.getD m d := by
  simp [List.getD, List.getElem?_take, h]

/-- Round-trip of the codec for messages carrying an extended header, under
the machine-width invariants of the Rust field types (u32 timestamps, u16
length, 4-byte identifier arrays) and the encoder's header-type byte 0x35.
Shared by the round-trip and the concrete-scenario theorems below. -/
theorem roundtrip_ext (m : DltMessage) (e : DltExtendedHeader)
    (hext : m.extended_header = some e)
    (hhtyp : m.standard_header.htyp = 0x35)
    (hpat : m.storage_header.pattern.length = 4)
    (hecu : m.storage_header.ecu.length = 4)
    (hapid : e.apid.length = 4) (hctid : e.ctid.length = 4)
    (hsec : m.storage_header.seconds < 4294967296)
    (hmic : m.storage_header.microseconds < 4294967296)
    (hlen : m.standard_header.len < 65536) :
    DltMessage.fromBytes m.toBytes = some m := by
  obtain ⟨⟨pat, s, u, ec⟩, ⟨ht, mc, ln⟩, ext, pl⟩ := m
  obtain ⟨ms, nr, ap, ct⟩ := e
  simp only at hext hhtyp hpat hecu hsec hmic hlen hapid hctid
  subst hext hhtyp
  obtain ⟨p0, p1, p2, p3, rfl⟩ := list_length_four pat hpat
  obtain ⟨e0, e1, e2, e3, rfl⟩ := list_length_four ec hecu
  obtain ⟨a0, a1, a2, a3, rfl⟩ := list_length_four ap hapid
  obtain ⟨c0, c1, c2, c3, rfl⟩ := list_length_four ct hctid
  have hB : DltMessage.toBytes
      ⟨⟨[p0,p1,p2,p3], s, u, [e0,e1,e2,e3]⟩, ⟨0x35, mc, ln⟩,
        some ⟨ms, nr, [a0,a1,a2,a3], [c0,c1,c2,c3]⟩, pl⟩ =
      p0::p1::p2::p3::(s%256)::(s/256%256)::(s/65536%256)::(s/16777216%256)::
      (u%256)::(u/256%256)::(u/65536%256)::(u/16777216%256)::
      e0::e1::e2::e3::0x35::mc::(ln%256)::(ln/256%256)::
      ms::nr::a0::a1::a2::a3::c0::c1::c2::c3::pl := rfl
  rw [hB]
  have hlenB : (p0::p1::p2::p3::(s%256)::(s/256%256)::(s/65536%256)::(s/16777216%256)::
      (u%256)::(u/256%256)::(u/65536%256)::(u/16777216%256)::
      e0::e1::e2::e3::0x35::mc::(ln%256)::(ln/256%256)::
      ms::nr::a0::a1::a2::a3::c0::c1::c2::c3::pl).length = 30 + pl.length := by
    simp
    omega
  unfold DltMessage.fromBytes
  rw [if_neg (by omega)]
  have hst : DltStorageHeader.fromBytes
      ((p0::p1::p2::p3::(s%256)::(s/256%256)::(s/65536%256)::(s/16777216%256)::
      (u%256)::(u/256%256)::(u/65536%256)::(u/16777216%256)::
      e0::e1::e2::e3::0x35::mc::(ln%256)::(ln/256%256)::
      ms::nr::a0::a1::a2::a3::c0::c1::c2::c3::pl).take 16) =
      some ⟨[p0,p1,p2,p3],
        u32ofLe (s%256) (s/256%256) (s/65536%256) (s/16777216%256),
        u32ofLe (u%256) (u/256%256) (u/65536%256) (u/16777216%256),
        [e0,e1,e2,e3]⟩ := rfl
  have hsd : DltStandardHeader.fromBytes
      (((p0::p1::p2::p3::(s%256)::(s/256%256)::(s/65536%256)::(s/16777216%256)::
      (u%256)::(u/256%256)::(u/65536%256)::(u/16777216%256)::
      e0::e1::e2::e3::0x35::mc::(ln%256)::(ln/256%256)::
      ms::nr::a0::a1::a2::a3::c0::c1::c2::c3::pl).drop 16).take 4) =
      some ⟨0x35, mc, u16ofLe (ln%256) (ln/256%256)⟩ := rfl
  rw [hst, hsd]
  simp only []
  rw [if_pos (by norm_num)]
  rw [if_neg (by omega)]
  have hex : DltExtendedHeader.fromBytes
      (((p0::p1::p2::p3::(s%256)::(s/256%256)::(s/65536%256)::(s/16777216%256)::
      (u%256)::(u/256%256)::(u/65536%256)::(u/16777216%256)::
      e0::e1::e2::e3::0x35::mc::(ln%256)::(ln/256%256)::
      ms::nr::a0::a1::a2::a3::c0::c1::c2::c3::pl).drop 20).take 10) =
      some ⟨ms, nr, [a0,a1,a2,a3], [c0,c1,c2,c3]⟩ := rfl
  have hdr : (p0::p1::p2::p3::(s%256)::(s/256%256)::(s/65536%256)::(s/16777216%256)::
      (u%256)::(u/256%256)::(u/65536%256)::(u/16777216%256)::
      e0::e1::e2::e3::0x35::mc::(ln%256)::(ln/256%256)::
      ms::nr::a0::a1::a2::a3::c0::c1::c2::c3::pl).drop 30 = pl := rfl
  rw [hex, hdr]
  rw [u32_le_of s hsec, u32_le_of u hmic, u16_le_of ln hlen]

-- Claim theorems ------------------------------------------------------

/-- C1.  The claim states that in Overwrite mode an enqueue onto a full ring
displaces the oldest resident envelope, making the new envelope resident.
The code's `Overwrite` arm is the same `try_send` as `DropNewest`: on a full
ring of capacity 1 holding envelope 0, enqueueing envelope 1 leaves envelope
0 resident, discards envelope 1, and counts the drop — the opposite of
displacement.  (The `OverflowMode::Overwrite` doc comment in the source
promises "drop oldest", so this is the code contradicting its own
documentation.) -/
theorem overwrite_full_ring_keeps_oldest :
    enqueue_message .Overwrite
        { capacity := 1, queue := [0], closed := false
          stats := { enqueued := 1, dropped := 0, sent := 0 } } 1 =
      ({ capacity := 1, queue := [0], closed := false
         stats := { enqueued := 1, dropped := 1, sent := 0 } },
       .droppedFull) := by
  decide

/-- C5.  Ring selection is the pure function of `(level, N)` that the spec
describes, for every level and every `N ≥ 1`: Fatal → 0, Error → 1 % N,
every other level → its discriminant mod N.  (For N = 1 the Error guard
`1 < N` fails and the source computes `2 % 1 = 0`, which agrees with the
spec's `1 % 1 = 0`.) -/
theorem select_buffer_eq_spec (level : DltLogLevel) (n : Nat) (h : 1 ≤ n) :
    select_buffer level n = some (specRingForLevel level n) := by
  have h0 : 0 < n := h
  cases level with
  | Error =>
    by_cases h1 : 1 < n
    · simp [select_buffer, specRingForLevel, h1]
    · have hn : n = 1 := by omega
      subst hn
      decide
  | _ => simp [select_buffer, specRingForLevel, h0, DltLogLevel.toNat]

theorem select_buffer_eq_spec_app :
    select_buffer .Error 1 = some (specRingForLevel .Error 1) :=
  select_buffer_eq_spec .Error 1 (by decide)

/-- C7.  A mode byte outside 0..=2 is rejected by `dlt_set_overflow_mode`
(the stored register keeps its value) and `OverflowMode::from_u8` reads any
such byte as `Overwrite`. -/
theorem overflow_mode_out_of_range (v stored : Nat) (h : 2 < v) :
    dlt_set_overflow_mode v stored = stored ∧
      OverflowMode.fromU8 v = .Overwrite := by
  have h0 : v ≠ 0 := by omega
  have h1 : v ≠ 1 := by omega
  have h2 : v ≠ 2 := by omega
  have h3 : ¬ v ≤ 2 := by omega
  simp [dlt_set_overflow_mode, OverflowMode.fromU8, h0, h1, h2, h3]

theorem overflow_mode_out_of_range_app :
    dlt_set_overflow_mode 3 1 = 1 ∧ OverflowMode.fromU8 3 = .Overwrite :=
  overflow_mode_out_of_range 3 1 (by decide)

/-- C9.  The precondition `N ≥ 1` is not enforced: parsing the environment
value `"0"` yields 0 rings, and with 0 rings every level reaches the
wildcard arm's `level % 0`, which panics in Rust (`none` here); with at
least one ring selection always succeeds. -/
theorem zero_rings_accepted_and_selection_panics (level : DltLogLevel)
    (n : Nat) (h : 1 ≤ n) :
    numBuffersFromEnv (some "0") = 0 ∧
      select_buffer level 0 = none ∧
      (select_buffer level n).isSome = true := by
  refine ⟨by decide, by cases level <;> decide, ?_⟩
  cases level <;> simp only [select_buffer] <;> split_ifs <;> simp_all

theorem zero_rings_accepted_and_selection_panics_app :
    numBuffersFromEnv (some "0") = 0 ∧
      select_buffer .Error 0 = none ∧
      (select_buffer .Error 1).isSome = true :=
  zero_rings_accepted_and_selection_panics .Error 1 (by decide)

/-- C10.  Both length fields of `new_verbose` wrap modulo 2^16: for a
message of 65535 or more bytes the string-length field (payload bytes 4..5)
differs from the true string-plus-null byte count, and for a message of
65522 or more bytes the standard-header length differs from the true byte
count of the frame body (extended header + standard header + payload). -/
theorem new_verbose_length_fields_wrap
    (s1 u1 s2 u2 : Nat) (ecu apid ctid msgA msgB : List Nat)
    (hA : 65535 ≤ msgA.length) (hB : 65522 ≤ msgB.length) :
    (u16ofLe ((DltMessage.new_verbose s1 u1 ecu apid ctid msgA).payload.getD 4 0)
        ((DltMessage.new_verbose s1 u1 ecu apid ctid msgA).payload.getD 5 0)
      ≠ msgA.length + 1) ∧
    ((DltMessage.new_verbose s2 u2 ecu apid ctid msgB).standard_header.len
      ≠ 14 + (DltMessage.new_verbose s2 u2 ecu apid ctid msgB).payload.length) := by
  constructor
  · show u16ofLe ((((msgA.length + 1) % 65536) % 256))
        ((((msgA.length + 1) % 65536) / 256 % 256)) ≠ msgA.length + 1
    unfold u16ofLe
    omega
  · simp only [DltMessage.new_verbose, DltStandardHeader.new, u16le,
      List.length_append, List.length_cons, List.length_nil]
    omega

/-- C4 (counterexample).  A batch of one envelope lost to `WouldBlock` on
the vectored write (no reconnect) leaves the ring's statistics bit-for-bit
unchanged — no counter of any kind is incremented — and the aggregate
overflow count stays 0, not 1 as the claim requires for a lost envelope. -/
theorem worker_would_block_counts_nothing :
    workerSendBatch { enqueued := 1, dropped := 0, sent := 0 } true 1
        .wouldBlock false .wouldBlock =
      ({ enqueued := 1, dropped := 0, sent := 0 }, false) ∧
    dlt_get_overflow_count
        [{ capacity := 8, queue := [], closed := false
           stats := { enqueued := 1, dropped := 0, sent := 0 } }] = 0 := by
  decide

/-- C4 (amended).  Producer-side losses each increment the ring's `dropped`
counter by exactly one (ring full in Overwrite/DropNewest, timeout in
BlockWithTimeout), and the aggregate overflow count grows by one with them;
a worker-side `WouldBlock` loss at the transport layer updates no counter
at all (there is no separate transport-drop counter), so the aggregate
overflow count reflects producer-side drops only. -/
theorem drop_accounting (r : Ring) (env : Nat) (stats : BufferStats)
    (batchLen : Nat) (hopen : r.closed = false)
    (hfull : ¬ r.queue.length < r.capacity) (hbatch : batchLen ≠ 0) :
    ((enqueue_message .Overwrite r env).1.stats.dropped = r.stats.dropped + 1) ∧
    ((enqueue_message .DropNewest r env).1.stats.dropped = r.stats.dropped + 1) ∧
    ((enqueue_message .BlockWithTimeout r env).1.stats.dropped = r.stats.dropped + 1) ∧
    (dlt_get_overflow_count [(enqueue_message .Overwrite r env).1] =
      dlt_get_overflow_count [r] + 1) ∧
    (workerSendBatch stats true batchLen .wouldBlock false .wouldBlock =
      (stats, false)) := by
  refine ⟨?_, ?_, ?_, ?_, ?_⟩ <;>
    simp [enqueue_message, trySend, dlt_get_overflow_count, workerSendBatch,
      hopen, hfull, hbatch]

theorem drop_accounting_app :
    ((enqueue_message .Overwrite
        { capacity := 1, queue := [7], closed := false
          stats := { enqueued := 1, dropped := 0, sent := 0 } } 9).1.stats.dropped
      = 0 + 1) ∧
    ((enqueue_message .DropNewest
        { capacity := 1, queue := [7], closed := false
          stats := { enqueued := 1, dropped := 0, sent := 0 } } 9).1.stats.dropped
      = 0 + 1) ∧
    ((enqueue_message .BlockWithTimeout
        { capacity := 1, queue := [7], closed := false
          stats := { enqueued := 1, dropped := 0, sent := 0 } } 9).1.stats.dropped
      = 0 + 1) ∧
    (dlt_get_overflow_count [(enqueue_message .Overwrite
        { capacity := 1, queue := [7], closed := false
          stats := { enqueued := 1, dropped := 0, sent := 0 } } 9).1] =
      dlt_get_overflow_count
        [{ capacity := 1, queue := [7], closed := false
           stats := { enqueued := 1, dropped := 0, sent := 0 } }] + 1) ∧
    (workerSendBatch { enqueued := 0, dropped := 0, sent := 0 } true 3
        .wouldBlock false .wouldBlock =
      ({ enqueued := 0, dropped := 0, sent := 0 }, false)) :=
  drop_accounting
    { capacity := 1, queue := [7], closed := false
      stats := { enqueued := 1, dropped := 0, sent := 0 } } 9
    { enqueued := 0, dropped := 0, sent := 0 } 3 (by decide) (by decide)
    (by decide)

theorem new_verbose_length_fields_wrap_app :
    (u16ofLe ((DltMessage.new_verbose 0 0 [] [] [] (List.replicate 65535 0)).payload.getD 4 0)
        ((DltMessage.new_verbose 0 0 [] [] [] (List.replicate 65535 0)).payload.getD 5 0)
      ≠ (List.replicate 65535 (0 : Nat)).length + 1) ∧
    ((DltMessage.new_verbose 0 0 [] [] [] (List.replicate 65522 0)).standard_header.len
      ≠ 14 + (DltMessage.new_verbose 0 0 [] [] [] (List.replicate 65522 0)).payload.length) :=
  new_verbose_length_fields_wrap 0 0 0 0 [] [] []
    (List.replicate 65535 0) (List.replicate 65522 0)
    (by rw [List.length_replicate]) (by rw [List.length_replicate])

/-- C2 (counterexample).  The round-trip fails for a message without an
extended header: the encoder's header-type byte for that case is 0x21,
whose bit 0 is set, so the decoder demands at least 30 bytes (treating the
frame as extended) and rejects the 20-byte encoding outright. -/
theorem no_ext_round_trip_fails :
    DltMessage.fromBytes (DltMessage.toBytes mNoExt) ≠ some mNoExt ∧
    DltMessage.fromBytes (DltMessage.toBytes mNoExt) = none ∧
    mNoExt.standard_header.htyp = 0x21 ∧
    mNoExt.extended_header = none ∧
    mNoExt.standard_header.htyp % 2 = 1 := by
  decide

/-- C2 (amended).  `from_bytes ∘ to_bytes` is the identity on every message
*with* an extended header and the encoder's header-type byte 0x35, under the
machine-width invariants of the Rust field types; without an extended header
the encoder's byte 0x21 also has bit 0 set, so the decoder misreads the
frame and the round-trip fails (see the counterexample). -/
theorem frame_round_trip (m : DltMessage) (e : DltExtendedHeader)
    (hext : m.extended_header = some e)
    (hhtyp : m.standard_header.htyp = 0x35)
    (hpat : m.storage_header.pattern.length = 4)
    (hecu : m.storage_header.ecu.length = 4)
    (hapid : e.apid.length = 4) (hctid : e.ctid.length = 4)
    (hsec : m.storage_header.seconds < 4294967296)
    (hmic : m.storage_header.microseconds < 4294967296)
    (hlen : m.standard_header.len < 65536) :
    DltMessage.fromBytes m.toBytes = some m :=
  roundtrip_ext m e hext hhtyp hpat hecu hapid hctid hsec hmic hlen

theorem frame_round_trip_app :
    DltMessage.fromBytes ((msgHello 0 0).toBytes) = some (msgHello 0 0) :=
  frame_round_trip (msgHello 0 0)
    ⟨1, 1, [76, 79, 71, 0], [84, 69, 83, 84]⟩
    (by decide) (by decide) (by decide) (by decide) (by decide) (by decide)
    (by decide) (by decide) (by decide)

/-- C3 (counterexample).  A 20-byte buffer whose first four bytes are not
the storage pattern decodes successfully: the decoder never inspects the
magic, so no `BadMagic`-style failure exists. -/
theorem bad_magic_decodes :
    (DltMessage.fromBytes badMagic20).isSome = true ∧
    badMagic20.take 4 ≠ dltPattern := by
  decide

/-- C3 (amended).  Decoding fails exactly when the buffer is shorter than
the 20-byte fixed minimum, or when bit 0 of the header-type byte (offset
16) is set and the buffer is shorter than 30 bytes.  In particular the
storage pattern is never checked (a bad magic decodes fine) and the
declared length field is never validated against the buffer. -/
theorem fromBytes_none_iff (bytes : List Nat) :
    DltMessage.fromBytes bytes = none ↔
      (bytes.length < 20 ∨
        ((bytes.getD 16 0) % 2 = 1 ∧ bytes.length < 30)) := by
  unfold DltMessage.fromBytes
  by_cases h20 : bytes.length < 20
  · simp [h20]
  · rw [if_neg h20]
    have hst : DltStorageHeader.fromBytes (bytes.take 16) =
        some { pattern := (bytes.take 16).take 4
               seconds := u32ofLe ((bytes.take 16).getD 4 0) ((bytes.take 16).getD 5 0)
                 ((bytes.take 16).getD 6 0) ((bytes.take 16).getD 7 0)
               microseconds := u32ofLe ((bytes.take 16).getD 8 0) ((bytes.take 16).getD 9 0)
                 ((bytes.take 16).getD 10 0) ((bytes.take 16).getD 11 0)
               ecu := ((bytes.take 16).drop 12).take 4 } := by
      unfold DltStorageHeader.fromBytes
      rw [if_neg (by simp; omega)]
    have hsd : DltStandardHeader.fromBytes ((bytes.drop 16).take 4) =
        some { htyp := ((bytes.drop 16).take 4).getD 0 0
               mcnt := ((bytes.drop 16).take 4).getD 1 0
               len := u16ofLe (((bytes.drop 16).take 4).getD 2 0)
                 (((bytes.drop 16).take 4).getD 3 0) } := by
      unfold DltStandardHeader.fromBytes
      rw [if_neg (by simp; omega)]
    rw [hst, hsd]
    have hhtyp : ((bytes.drop 16).take 4).getD 0 0 = bytes.getD 16 0 := by
      rw [getD_take _ _ _ _ (by norm_num), getD_drop]
    simp only [hhtyp]
    by_cases hbit : bytes.getD 16 0 % 2 = 1
    · rw [if_pos hbit]
      by_cases h30 : bytes.length < 30
      · rw [if_pos h30]
        simp only [true_iff]
        exact Or.inr ⟨hbit, h30⟩
      · rw [if_neg h30]
        constructor
        · intro hc
          exact absurd hc (by simp)
        · rintro (hc | ⟨_, hc⟩)
          · exact absurd hc h20
          · exact absurd hc h30
    · rw [if_neg hbit]
      constructor
      · intro hc
        exact absurd hc (by simp)
      · rintro (hc | ⟨hb, _⟩)
        · exact absurd hc h20
        · exact absurd hb hbit

/-- C6 (counterexample).  The emitted frame for the spec's decode scenario
(app `LOG`, context `TEST`, ECU `ECU1`, payload text `"0 Hello"`) is 44
bytes long, not the 40 bytes the claim states: 16 storage + 4 standard +
10 extended + 14 payload (4 type descriptor + 2 length + 7 text + 1 null). -/
theorem hello_frame_not_40_bytes :
    (msgHello 0 0).toBytes.length ≠ 40 ∧
    (msgHello 0 0).toBytes.length = 44 := by
  decide

/-- C6 (amended).  For every wall-clock reading, the scenario message (app
`LOG`, context `TEST`, ECU `ECU1`, payload text `"0 Hello"`) encodes to a
44-byte frame that decodes back to the identical message, with header-type
byte 0x35, one argument, the exact identifier bytes, and extracted string
payload `"0 Hello"`. -/
theorem hello_frame_decodes (secs micros : Nat) :
    (msgHello secs micros).toBytes.length = 44 ∧
    DltMessage.fromBytes ((msgHello secs micros).toBytes) =
      some (msgHello secs micros) ∧
    (msgHello secs micros).standard_header.htyp = 0x35 ∧
    (msgHello secs micros).extended_header =
      some ⟨1, 1, [76, 79, 71, 0], [84, 69, 83, 84]⟩ ∧
    (msgHello secs micros).storage_header.ecu = [69, 67, 85, 49] ∧
    (msgHello secs micros).extract_string_payload =
      some [48, 32, 72, 101, 108, 108, 111] := by
  refine ⟨rfl, ?_, rfl, rfl, rfl, rfl⟩
  refine roundtrip_ext (msgHello secs micros)
    ⟨1, 1, [76, 79, 71, 0], [84, 69, 83, 84]⟩
    rfl rfl rfl rfl rfl rfl ?_ ?_ ?_
  · exact Nat.mod_lt _ (by norm_num)
  · exact Nat.mod_lt _ (by norm_num)
  · show (28 : Nat) < 65536
    norm_num

/-- C8 (counterexample).  On a 20-byte accumulation buffer of zeros, the
single candidate frame declares a standard-header length of 0, so
`total_len = 16`; its 16-byte slice fails to decode, yet the loop advances
by 16 bytes — not by one — before stopping with 4 residual bytes. -/
theorem receiveLoop_counterexample :
    receiveLoop (List.replicate 20 0) 0 [] = ([], 16) ∧ (16 : Nat) ≠ 1 := by
  refine ⟨?_, by decide⟩
  rw [receiveLoop]
  norm_num [u16ofLe]
  rw [show DltMessage.fromBytes (List.replicate 16 0) = none from by decide]
  rw [receiveLoop]
  norm_num

/-- C8 (amended).  Whenever a candidate frame fails to decode (and the
buffer holds the declared number of bytes), the subscriber's framing loop
advances by the declared total frame length `16 + std_len` — exactly as it
does on success, with no one-byte resync — and continues parsing there. -/
theorem receiveLoop_skip_declared (pending : List Nat) (offset : Nat)
    (msgs : List DltMessage)
    (h1 : offset < pending.length)
    (h2 : ¬ pending.length - offset < 20)
    (h3 : ¬ pending.length < offset +
      (16 + u16ofLe (pending.getD (offset + 18) 0) (pending.getD (offset + 19) 0)))
    (h4 : DltMessage.fromBytes ((pending.drop offset).take
      (16 + u16ofLe (pending.getD (offset + 18) 0) (pending.getD (offset + 19) 0))) = none) :
    receiveLoop pending offset msgs =
      receiveLoop pending
        (offset + (16 + u16ofLe (pending.getD (offset + 18) 0) (pending.getD (offset + 19) 0)))
        msgs := by
  conv_lhs => rw [receiveLoop]
  simp only [if_pos h1, if_neg h2, if_neg h3, h4]

theorem receiveLoop_skip_declared_app :
    receiveLoop (List.replicate 20 0) 0 [] =
      receiveLoop (List.replicate 20 0)
        (0 + (16 + u16ofLe ((List.replicate 20 0).getD 18 0)
          ((List.replicate 20 0).getD 19 0))) [] :=
  receiveLoop_skip_declared (List.replicate 20 0) 0 []
    (by decide) (by decide) (by decide) (by decide)

end Dlt
